import Mathlib

/-!
Shallow embedding of `scripts/upload_to_dune.py`.

The script is a single linear ETL pipeline: fetch a JSON array of
validator-queue records into a pandas DataFrame, verify freshness of its
date column, drop incomplete rows, and upload the result to Dune.

Modelling choices:
* A `Table` embeds a pandas DataFrame built from a JSON array of objects:
  a list of column names (`cols`, the authoritative column index) together
  with a list of rows; each row is an association list from column name to
  cell value.  A key absent from a row denotes a missing cell (NaN), which
  is exactly how `pd.DataFrame(list_of_dicts)` fills non-shared keys.
* Cell values (`PyVal`) carry the results pandas' parsers would give for
  them: a string cell is represented by its `pd.to_numeric` result and its
  `pd.to_datetime` result (we do not re-implement pandas' numeric/date
  grammars, we model their outcome).  Datetimes are UTC instants as
  integers, so the script's "naive timestamps are assumed UTC"
  normalisation (`latest_date.replace(tzinfo=timezone.utc)`) is the
  identity on the representation.
* Python exceptions are modelled with `Except PyError`.  In particular
  `DataFrame.dropna(subset=...)` raises `KeyError` listing the subset
  labels absent from the frame, `df.iloc[-1]` raises `IndexError` on an
  empty frame, and `df['date']` raises `KeyError` when the column is
  absent.
* The HTTP GET / JSON decode of `fetch_validator_data` and the Dune client
  call of `upload_to_dune` are external effects; the fetched, already
  parsed table and the sink's response are inputs of the model.
-/

/-- A DataFrame cell value.  `strV np dp` is a string cell carrying the
result pandas' numeric parser (`np`) and datetime parser (`dp`) give for
it; `dateV` is a datetime value as a UTC instant in seconds; `missing` is
NaN/NaT/None. -/
inductive PyVal where
  | numV (q : ℚ)
  | dateV (d : ℤ)
  | strV (np : Option ℚ) (dp : Option ℤ)
  | missing
deriving DecidableEq

/-- One DataFrame row: an association list from column name to cell value.
A name absent from the list is a missing cell (NaN), matching how
`pd.DataFrame` fills keys that not all JSON objects share. -/
abbrev Row := List (String × PyVal)

/-- A pandas DataFrame: the ordered column index plus the rows. -/
structure Table where
  cols : List String
  rows : List Row
deriving DecidableEq

/-- Read the cell of row `r` at column `c`; an absent key is NaN. -/
def getCell (r : Row) (c : String) : PyVal :=
  (r.lookup c).getD PyVal.missing

/-- Write value `v` into the cell of row `r` at column `c` (column
assignment `df[c] = ...` writes every row; a row that had no cell for `c`
gains one). -/
def setCell (r : Row) (c : String) (v : PyVal) : Row :=
  if (r.lookup c).isSome then
    r.map (fun p => if p.1 = c then (c, v) else p)
  else
    r ++ [(c, v)]

/-- `True`/`False` whether `v` is pandas-missing (NaN/NaT/None). -/
def PyVal.isMissing : PyVal → Bool
  | .missing => true
  | _ => false

/-- `pd.to_numeric(v, errors='coerce')` on one cell: numbers pass through,
strings yield their numeric parse or NaN, anything else coerces to NaN. -/
def to_numeric : PyVal → PyVal
  | .numV q => .numV q
  | .strV np _ =>
      match np with
      | some q => .numV q
      | none => .missing
  | .dateV _ => .missing
  | .missing => .missing

/-- `pd.to_datetime(v, errors='coerce')` on one cell, as an optional UTC
instant: datetimes pass through, strings yield their date parse, bare
numbers are read as epoch offsets (we take the integer part of the
resulting instant), missing stays missing (NaT). -/
def to_datetime (v : PyVal) : Option ℤ :=
  match v with
  | .dateV d => some d
  | .strV _ dp => dp
  | .numV q => some ⌊q⌋
  | .missing => none

/-- Result of `pd.to_datetime(..., errors='coerce')` stored back as a cell:
parseable values become datetimes, unparseable ones become NaT. -/
def dateCoerce (v : PyVal) : PyVal :=
  match to_datetime v with
  | some d => .dateV d
  | none => .missing

/-- Errors the script can raise, by Python exception class. -/
inductive PyError where
  | keyError (cs : List String)
  | indexError
  | sinkError
deriving DecidableEq

/-- `df[c] = df[c].map f` when `c` is a column of `t`, else `t` unchanged
(the script only prints a warning for an absent column). -/
def coerceColumn (t : Table) (c : String) (f : PyVal → PyVal) : Table :=
  if t.cols.contains c then
    ⟨t.cols, t.rows.map (fun r => setCell r c (f (getCell r c)))⟩
  else t

/-- `df.dropna(subset=sub)`: raises `KeyError` listing the subset labels
that are not columns of the frame; otherwise keeps exactly the rows with
no missing cell in any subset column. -/
def dropnaSubset (t : Table) (sub : List String) : Except PyError Table :=
  if (sub.filter (fun c => !(t.cols.contains c))).isEmpty then
    Except.ok ⟨t.cols, t.rows.filter (fun r => sub.all (fun c => !(getCell r c).isMissing))⟩
  else
    Except.error (PyError.keyError (sub.filter (fun c => !(t.cols.contains c))))

/-- The nine columns `fetch_validator_data` coerces to numeric and then
drops on (source lines 43-46). -/
def cols_to_numeric : List String :=
  ["validators", "entry_queue", "entry_wait", "exit_queue", "exit_wait",
   "supply", "staked_amount", "staked_percent", "apr"]

/-- The required-column list of `clean_validator_data` (source lines
103-107); textually repeated in the script, with the same nine names. -/
def required_cols : List String :=
  ["validators", "entry_queue", "entry_wait",
   "exit_queue", "exit_wait",
   "supply", "staked_amount", "staked_percent", "apr"]

/-- Post-parse body of `fetch_validator_data` (source lines 39-60): the
DataFrame built from the fetched JSON is the input; each listed column
that exists is coerced to numeric (absent ones only get a printed
warning), then `dropna(subset=cols_to_numeric)` runs — which raises
`KeyError` if any listed column is absent. -/
def fetch_validator_data (t : Table) : Except PyError Table :=
  dropnaSubset (cols_to_numeric.foldl (fun a c => coerceColumn a c to_numeric) t)
    cols_to_numeric

/-- Outcome of `verify_recent_data`: normal return with the verification
message (`passed`), normal return because no date column exists
(`skipped`), the `ValueError` for outdated data (`stale`), and the
`ValueError` for an undeterminable latest date (`freshErr`).  The two
`ValueError`s are distinct raises with distinct messages in the source. -/
inductive VerifyOutcome where
  | passed
  | skipped
  | stale
  | freshErr
deriving DecidableEq

/-- Date-field selection of `verify_recent_data` (source lines 64-69):
prefer `timestamp`, else `date`, else none. -/
def selectDateCol (t : Table) : Option String :=
  if t.cols.contains "timestamp" then some "timestamp"
  else if t.cols.contains "date" then some "date"
  else none

/-- Seven days in seconds: the staleness threshold width
(`timedelta(days=7)`). -/
def weekSeconds : ℤ := 7 * 86400

/-- The parseable datetimes of column `c` of `t`, in row order. -/
def parsedDates (t : Table) (c : String) : List ℤ :=
  t.rows.filterMap (fun r => to_datetime (getCell r c))

/-- Maximum of a list of instants (`Series.max`, which skips NaT); `none`
on the empty list (pandas returns NaT). -/
def listMax : List ℤ → Option ℤ
  | [] => none
  | x :: xs =>
      match listMax xs with
      | none => some x
      | some m => some (max x m)

/-- In-place datetime conversion of column `c` (source line 76:
`df[date_column] = pd.to_datetime(df[date_column], errors='coerce')`). -/
def mutateDate (t : Table) (c : String) : Table :=
  ⟨t.cols, t.rows.map (fun r => setCell r c (dateCoerce (getCell r c)))⟩

/-- `verify_recent_data` (source lines 62-91).  `now` is
`datetime.now(timezone.utc)` as a UTC instant.  Returns the outcome
together with the table as left behind: when a date column is selected it
has been overwritten in place by its parsed values, whatever the outcome;
naive parsed values are assumed UTC, which is the identity on our instant
representation. -/
def verify_recent_data (t : Table) (now : ℤ) : VerifyOutcome × Table :=
  match selectDateCol t with
  | none => (.skipped, t)
  | some c =>
      match listMax (parsedDates (mutateDate t c) c) with
      | none => (.freshErr, mutateDate t c)
      | some latest =>
          if latest < now - weekSeconds then (.stale, mutateDate t c)
          else (.passed, mutateDate t c)

/-- `clean_validator_data` (source lines 93-129).  Line 111 prints
`df.iloc[-1]`, which raises `IndexError` on an empty frame; line 114 is
`df.dropna(subset=required_cols)`, which raises `KeyError` when a required
column is absent; line 126 prints `df['date'].max()`, which raises
`KeyError` when there is no `date` column (`.max()` of an empty or
all-NaT column is NaT and prints fine). -/
def clean_validator_data (t : Table) : Except PyError Table :=
  if t.rows.isEmpty then Except.error PyError.indexError
  else
    match dropnaSubset t required_cols with
    | Except.error e => Except.error e
    | Except.ok t2 =>
        if t2.cols.contains "date" then Except.ok t2
        else Except.error (PyError.keyError ["date"])

/-- Shape of what `dune.upload_csv` produces, as `upload_to_dune` (source
lines 146-158) distinguishes them: the call raises; or returns a boolean;
or returns an object with a `table_name` attribute; or returns something
else.  The non-raising shapes are only printed about and returned. -/
inductive SinkResult where
  | raises
  | boolR (b : Bool)
  | objR (tableName : String)
  | other
deriving DecidableEq

/-- `upload_to_dune` (source lines 131-160): serialises and calls the
sink; a raise propagates, every returned shape — `False` included — is
logged and returned. -/
def upload_to_dune (t : Table) (sink : Table → SinkResult) : Except PyError SinkResult :=
  match sink t with
  | .raises => Except.error PyError.sinkError
  | r => Except.ok r

/-- ASCII lowering of one character, as `str.lower()` acts on the ASCII
range (the only range the compared literals inhabit). -/
def charLower (ch : Char) : Char :=
  if 65 ≤ ch.toNat ∧ ch.toNat ≤ 90 then Char.ofNat (ch.toNat + 32) else ch

/-- `str.lower()` of an ASCII string. -/
def strLower (s : String) : String := ⟨s.data.map charLower⟩

/-- `os.getenv("FORCE_UPLOAD", "false").lower() in ["true", "1", "yes"]`
(source line 177). -/
def force_upload (env : Option String) : Bool :=
  ["true", "1", "yes"].contains (strLower (env.getD "false"))

/-- The `ValueError` outcomes of `verify_recent_data`, i.e. exactly those
the `except ValueError` handler in `main` (line 175) catches. -/
def isValueError : VerifyOutcome → Bool
  | .stale => true
  | .freshErr => true
  | _ => false

/-- Pipeline stage names, for locating a failure. -/
inductive Stage where
  | fetching
  | verifying
  | cleaning
  | publishing
deriving DecidableEq

/-- Terminal result of a run: `done` with the table that was published, or
`failedAt` the stage whose exception propagated out of `main`. -/
inductive RunResult where
  | done (published : Table)
  | failedAt (s : Stage)
deriving DecidableEq

/-- Publishing step of `main` (lines 187-191): any exception out of
`upload_to_dune` propagates; any returned value leads to
"Process completed successfully!". -/
def publishStage (t : Table) (sink : Table → SinkResult) : RunResult :=
  match upload_to_dune t sink with
  | Except.error _ => .failedAt .publishing
  | Except.ok _ => .done t

/-- Cleaning step of `main` (lines 184-185) followed by publishing. -/
def cleanStage (t : Table) (sink : Table → SinkResult) : RunResult :=
  match clean_validator_data t with
  | Except.error _ => .failedAt .cleaning
  | Except.ok t2 => publishStage t2 sink

/-- The `main` function (source lines 162-195; `mainRun` here since Lean
reserves the name).  `raw` is the DataFrame parsed from the
fetched JSON, `now` the current UTC instant, `env` the `FORCE_UPLOAD`
environment variable, `sink` the Dune client.  The `except ValueError`
handler around `verify_recent_data` re-raises unless `force_upload`; the
outer handler re-raises everything, so any escaped exception is a
non-zero process exit at its stage. -/
def mainRun (raw : Table) (now : ℤ) (env : Option String) (sink : Table → SinkResult) :
    RunResult :=
  match fetch_validator_data raw with
  | Except.error _ => .failedAt .fetching
  | Except.ok df =>
      if isValueError (verify_recent_data df now).1 && !(force_upload env) then
        .failedAt .verifying
      else cleanStage (verify_recent_data df now).2 sink

/-- Process exit contract: 0 on `done`, non-zero when an exception
propagates out of `main` (the script re-raises, so Python exits 1). -/
def exitCode : RunResult → Nat
  | .done _ => 0
  | .failedAt _ => 1

/-- Decidable equality for `Except`, so that runs of the pipeline can be
checked on concrete tables. -/
instance exceptDecEq {ε α : Type} [DecidableEq ε] [DecidableEq α] : DecidableEq (Except ε α)
  | Except.ok a, Except.ok b =>
      if h : a = b then isTrue (by rw [h]) else isFalse (fun hc => h (Except.ok.inj hc))
  | Except.ok _, Except.error _ => isFalse (fun hc => Except.noConfusion hc)
  | Except.error _, Except.ok _ => isFalse (fun hc => Except.noConfusion hc)
  | Except.error e, Except.error f =>
      if h : e = f then isTrue (by rw [h]) else isFalse (fun hc => h (Except.error.inj hc))

/-! ### Concrete tables, used to exercise the pipeline on explicit inputs -/

/-- A fully populated record: every required column holds a number and the
`date` column holds a parseable date (the instant 0). -/
def rowFull : Row :=
  [("validators", PyVal.numV 100), ("entry_queue", PyVal.numV 5), ("entry_wait", PyVal.numV 1),
   ("exit_queue", PyVal.numV 2), ("exit_wait", PyVal.numV 1), ("supply", PyVal.numV 100000),
   ("staked_amount", PyVal.numV 30000), ("staked_percent", PyVal.numV 30),
   ("apr", PyVal.numV 7), ("date", PyVal.dateV 0)]

/-- `rowFull` with an unparseable string in the `date` column. -/
def rowJunkDate : Row :=
  [("validators", PyVal.numV 100), ("entry_queue", PyVal.numV 5), ("entry_wait", PyVal.numV 1),
   ("exit_queue", PyVal.numV 2), ("exit_wait", PyVal.numV 1), ("supply", PyVal.numV 100000),
   ("staked_amount", PyVal.numV 30000), ("staked_percent", PyVal.numV 30),
   ("apr", PyVal.numV 7), ("date", PyVal.strV none none)]

/-- `rowFull` after the date column has been coerced away to NaT. -/
def rowDateMissing : Row :=
  [("validators", PyVal.numV 100), ("entry_queue", PyVal.numV 5), ("entry_wait", PyVal.numV 1),
   ("exit_queue", PyVal.numV 2), ("exit_wait", PyVal.numV 1), ("supply", PyVal.numV 100000),
   ("staked_amount", PyVal.numV 30000), ("staked_percent", PyVal.numV 30),
   ("apr", PyVal.numV 7), ("date", PyVal.missing)]

/-- A table with all expected columns but zero rows. -/
def exEmptyRows : Table := ⟨required_cols ++ ["date"], []⟩

/-- A non-empty table from a partial feed schema: only `validators` and
`date` exist as columns. -/
def exPartialSchema : Table :=
  ⟨["validators", "date"], [[("validators", PyVal.numV 1), ("date", PyVal.dateV 0)]]⟩

/-- A one-row table whose only record is fully populated and fresh. -/
def exGood : Table := ⟨required_cols ++ ["date"], [rowFull]⟩

/-- A one-row table whose record is fully numeric but whose `date` value
is an unparseable string. -/
def exJunkDate : Table := ⟨required_cols ++ ["date"], [rowJunkDate]⟩

/-- `exJunkDate` as it stands after `verify_recent_data` has coerced the
`date` column: the unparseable value became NaT. -/
def exJunkDateCoerced : Table := ⟨required_cols ++ ["date"], [rowDateMissing]⟩

/-- A table with all expected columns and a single record every one of
whose cells is missing (an empty JSON object in the feed). -/
def exAllMissingRow : Table := ⟨required_cols ++ ["date"], [[]]⟩

/-- A fully populated fresh table together with a second, entirely empty
record; the empty record is dropped by the pipeline. -/
def exGoodPlusEmpty : Table := ⟨required_cols ++ ["date"], [rowFull, []]⟩

/-- A two-column table used to observe the in-place date mutation. -/
def exMutate : Table := ⟨["date", "x"], [[("date", PyVal.strV none none), ("x", PyVal.numV 5)]]⟩

/-- A table carrying both a `timestamp` and a `date` column. -/
def exBothDateCols : Table :=
  ⟨["timestamp", "date"], [[("timestamp", PyVal.dateV 5), ("date", PyVal.dateV 3)]]⟩

/-- A table with neither `timestamp` nor `date`. -/
def exNoDateCols : Table := ⟨["x"], [[("x", PyVal.numV 1)]]⟩

/-- A sink whose call raises. -/
def sinkRaises : Table → SinkResult := fun _ => SinkResult.raises

/-- A sink returning boolean `False` (the upload method reporting failure). -/
def sinkFalse : Table → SinkResult := fun _ => SinkResult.boolR false

/-- A sink returning boolean `True`. -/
def sinkTrue : Table → SinkResult := fun _ => SinkResult.boolR true

/-! ### Cell-access lemmas -/

theorem lookup_map_upd_hit (r : Row) (c : String) (v : PyVal)
    (h : (r.lookup c).isSome) :
    (r.map (fun p => if p.1 = c then (c, v) else p)).lookup c = some v := by
  induction r with
  | nil => simp [List.lookup] at h
  | cons p r ih =>
      obtain ⟨k, x⟩ := p
      by_cases hk : k = c
      · subst hk
        simp [List.lookup_cons]
      · simp only [List.lookup_cons, beq_false_of_ne (Ne.symm hk), cond_false] at h
        simp only [List.map_cons, if_neg hk, List.lookup_cons,
          beq_false_of_ne (Ne.symm hk), cond_false]
        exact ih h

theorem lookup_map_upd_ne (r : Row) (c c' : String) (v : PyVal) (hne : c' ≠ c) :
    (r.map (fun p => if p.1 = c then (c, v) else p)).lookup c' = r.lookup c' := by
  induction r with
  | nil => simp
  | cons p r ih =>
      obtain ⟨k, x⟩ := p
      by_cases hk : k = c
      · subst hk
        simp only [List.map_cons, eq_self_iff_true, if_true, List.lookup_cons,
          beq_false_of_ne hne, cond_false]
        exact ih
      · simp only [List.map_cons, if_neg hk, List.lookup_cons]
        by_cases hck : c' = k
        · simp [hck]
        · simp only [beq_false_of_ne hck, cond_false]
          exact ih

theorem lookup_append_sing_hit (r : Row) (c : String) (v : PyVal)
    (h : r.lookup c = none) :
    (r ++ [(c, v)]).lookup c = some v := by
  induction r with
  | nil => simp [List.lookup_cons]
  | cons p r ih =>
      obtain ⟨k, x⟩ := p
      by_cases hk : c = k
      · subst hk
        simp [List.lookup_cons] at h
      · simp only [List.lookup_cons, beq_false_of_ne hk, cond_false] at h
        simp only [List.cons_append, List.lookup_cons, beq_false_of_ne hk, cond_false]
        exact ih h

theorem lookup_append_sing_ne (r : Row) (c c' : String) (v : PyVal) (hne : c' ≠ c) :
    (r ++ [(c, v)]).lookup c' = r.lookup c' := by
  induction r with
  | nil => simp [List.lookup_cons, beq_false_of_ne hne]
  | cons p r ih =>
      obtain ⟨k, x⟩ := p
      simp only [List.cons_append, List.lookup_cons]
      by_cases hck : c' = k
      · simp [hck]
      · simp only [beq_false_of_ne hck, cond_false]
        exact ih

theorem getCell_setCell_same (r : Row) (c : String) (v : PyVal) :
    getCell (setCell r c v) c = v := by
  unfold setCell getCell
  by_cases h : (r.lookup c).isSome
  · rw [if_pos h, lookup_map_upd_hit r c v h]
    rfl
  · rw [if_neg h, lookup_append_sing_hit r c v (Option.not_isSome_iff_eq_none.mp h)]
    rfl

theorem getCell_setCell_ne (r : Row) (c c' : String) (v : PyVal) (hne : c' ≠ c) :
    getCell (setCell r c v) c' = getCell r c' := by
  unfold setCell getCell
  by_cases h : (r.lookup c).isSome
  · rw [if_pos h, lookup_map_upd_ne r c c' v hne]
  · rw [if_neg h, lookup_append_sing_ne r c c' v hne]

/-! ### Parser-level lemmas -/

theorem to_datetime_dateCoerce (v : PyVal) :
    to_datetime (dateCoerce v) = to_datetime v := by
  unfold dateCoerce
  cases h : to_datetime v with
  | none => simp [to_datetime]
  | some d => simp [to_datetime]

theorem to_numeric_num_or_missing (v : PyVal) :
    to_numeric v = PyVal.missing ∨ ∃ q, to_numeric v = PyVal.numV q := by
  cases v with
  | numV q => exact Or.inr ⟨q, rfl⟩
  | dateV d => exact Or.inl rfl
  | strV np dp =>
      cases np with
      | none => exact Or.inl rfl
      | some q => exact Or.inr ⟨q, rfl⟩
  | missing => exact Or.inl rfl

theorem dateCoerce_missing_of_unparseable (v : PyVal) (h : to_datetime v = none) :
    dateCoerce v = PyVal.missing := by
  unfold dateCoerce
  rw [h]

/-! ### Column-preservation lemmas -/

theorem coerceColumn_cols (t : Table) (c : String) (f : PyVal → PyVal) :
    (coerceColumn t c f).cols = t.cols := by
  unfold coerceColumn
  by_cases h : t.cols.contains c
  · rw [if_pos h]
  · rw [if_neg h]

theorem foldl_coerce_cols (L : List String) (t : Table) :
    (L.foldl (fun a c => coerceColumn a c to_numeric) t).cols = t.cols := by
  induction L generalizing t with
  | nil => rfl
  | cons c L ih => rw [List.foldl_cons, ih, coerceColumn_cols]

theorem mutateDate_cols (t : Table) (c : String) : (mutateDate t c).cols = t.cols := rfl

/-! ### Numeric-or-missing invariant of the coercion fold -/

def numOrMissing (v : PyVal) : Prop :=
  v = PyVal.missing ∨ ∃ q, v = PyVal.numV q

theorem coerce_establishes (t : Table) (c : String) (h : t.cols.contains c = true) :
    ∀ r ∈ (coerceColumn t c to_numeric).rows, numOrMissing (getCell r c) := by
  intro r hr
  unfold coerceColumn at hr
  rw [if_pos h] at hr
  simp only [List.mem_map] at hr
  obtain ⟨r0, _, rfl⟩ := hr
  rw [getCell_setCell_same]
  exact to_numeric_num_or_missing _

theorem coerce_preserves (t : Table) (c c' : String)
    (h : ∀ r ∈ t.rows, numOrMissing (getCell r c)) :
    ∀ r ∈ (coerceColumn t c' to_numeric).rows, numOrMissing (getCell r c) := by
  intro r hr
  unfold coerceColumn at hr
  by_cases hc : t.cols.contains c'
  · rw [if_pos hc] at hr
    simp only [List.mem_map] at hr
    obtain ⟨r0, hr0, rfl⟩ := hr
    by_cases hcc : c = c'
    · subst hcc
      rw [getCell_setCell_same]
      exact to_numeric_num_or_missing _
    · rw [getCell_setCell_ne _ _ _ _ hcc]
      exact h r0 hr0
  · rw [if_neg hc] at hr
    exact h r hr

theorem foldl_coerce_preserves (L : List String) (t : Table) (c : String)
    (h : ∀ r ∈ t.rows, numOrMissing (getCell r c)) :
    ∀ r ∈ (L.foldl (fun a c => coerceColumn a c to_numeric) t).rows,
      numOrMissing (getCell r c) := by
  induction L generalizing t with
  | nil => exact h
  | cons c0 L ih =>
      rw [List.foldl_cons]
      exact ih _ (coerce_preserves t c c0 h)

theorem foldl_coerce_establishes (L : List String) (t : Table) (c : String)
    (hc : c ∈ L) (hcont : t.cols.contains c = true) :
    ∀ r ∈ (L.foldl (fun a c => coerceColumn a c to_numeric) t).rows,
      numOrMissing (getCell r c) := by
  induction L generalizing t with
  | nil => cases hc
  | cons c0 L ih =>
      rw [List.foldl_cons]
      by_cases hcc : c = c0
      · subst hcc
        exact foldl_coerce_preserves L _ c (coerce_establishes t c hcont)
      · have hc' : c ∈ L := by
          cases hc with
          | head => exact absurd rfl hcc
          | tail _ h => exact h
        exact ih _ hc' (by rw [coerceColumn_cols]; exact hcont)

/-! ### dropna lemmas -/

theorem dropna_ok (t : Table) (sub : List String)
    (h : ∀ c ∈ sub, t.cols.contains c = true) :
    dropnaSubset t sub =
      Except.ok ⟨t.cols, t.rows.filter (fun r => sub.all (fun c => !(getCell r c).isMissing))⟩ := by
  unfold dropnaSubset
  have habs : sub.filter (fun c => !(t.cols.contains c)) = [] := by
    rw [List.filter_eq_nil_iff]
    intro c hc
    rw [h c hc]
    simp
  rw [habs]
  rfl

theorem dropna_absent (t : Table) (sub : List String) (c : String)
    (hc : c ∈ sub) (habs : t.cols.contains c = false) :
    dropnaSubset t sub =
      Except.error (PyError.keyError (sub.filter (fun c => !(t.cols.contains c)))) := by
  unfold dropnaSubset
  have hmem : c ∈ sub.filter (fun c => !(t.cols.contains c)) := by
    rw [List.mem_filter]
    exact ⟨hc, by rw [habs]; rfl⟩
  have hne : (sub.filter (fun c => !(t.cols.contains c))).isEmpty = false := by
    cases hfil : sub.filter (fun c => !(t.cols.contains c)) with
    | nil => rw [hfil] at hmem; cases hmem
    | cons a l => rfl
  rw [hne]
  rfl

theorem dropna_ok_elim (t t2 : Table) (sub : List String)
    (h : dropnaSubset t sub = Except.ok t2) :
    t2.cols = t.cols ∧
      t2.rows = t.rows.filter (fun r => sub.all (fun c => !(getCell r c).isMissing)) ∧
      ∀ c ∈ sub, t.cols.contains c = true := by
  unfold dropnaSubset at h
  by_cases habs : (sub.filter (fun c => !(t.cols.contains c))).isEmpty
  · rw [if_pos habs] at h
    have h2 := Except.ok.inj h
    have hcont : ∀ c ∈ sub, t.cols.contains c = true := by
      intro c hc
      by_contra hcon
      have : c ∈ sub.filter (fun c => !(t.cols.contains c)) := by
        rw [List.mem_filter]
        refine ⟨hc, ?_⟩
        cases hb : t.cols.contains c with
        | true => exact absurd hb hcon
        | false => rfl
      rw [List.isEmpty_iff] at habs
      rw [habs] at this
      cases this
    exact ⟨by rw [← h2], by rw [← h2], hcont⟩
  · rw [if_neg habs] at h
    cases h

/-! ### Freshness-gate lemmas -/

theorem parsedDates_mutateDate (t : Table) (c : String) :
    parsedDates (mutateDate t c) c = parsedDates t c := by
  unfold parsedDates mutateDate
  rw [List.filterMap_map]
  apply List.filterMap_congr
  intro r _
  simp only [Function.comp_apply, getCell_setCell_same, to_datetime_dateCoerce]

theorem verify_eq_of_select (t : Table) (now : ℤ) (c : String)
    (hc : selectDateCol t = some c) :
    verify_recent_data t now =
      match listMax (parsedDates t c) with
      | none => (VerifyOutcome.freshErr, mutateDate t c)
      | some latest =>
          if latest < now - weekSeconds then (VerifyOutcome.stale, mutateDate t c)
          else (VerifyOutcome.passed, mutateDate t c) := by
  unfold verify_recent_data
  rw [hc]
  show (match listMax (parsedDates (mutateDate t c) c) with
      | none => (VerifyOutcome.freshErr, mutateDate t c)
      | some latest =>
          if latest < now - weekSeconds then (VerifyOutcome.stale, mutateDate t c)
          else (VerifyOutcome.passed, mutateDate t c)) = _
  rw [parsedDates_mutateDate]

theorem verify_eq_of_none (t : Table) (now : ℤ) (hc : selectDateCol t = none) :
    verify_recent_data t now = (VerifyOutcome.skipped, t) := by
  unfold verify_recent_data
  rw [hc]

theorem bool_eq_false {b : Bool} (h : ¬ b = true) : b = false := by
  cases b with
  | true => exact absurd rfl h
  | false => rfl

theorem selectDateCol_mem (t : Table) (c : String) (hc : selectDateCol t = some c) :
    c = "timestamp" ∨ c = "date" := by
  unfold selectDateCol at hc
  by_cases h1 : t.cols.contains "timestamp"
  · rw [if_pos h1] at hc
    exact Or.inl (Option.some.inj hc).symm
  · rw [if_neg h1] at hc
    by_cases h2 : t.cols.contains "date"
    · rw [if_pos h2] at hc
      exact Or.inr (Option.some.inj hc).symm
    · rw [if_neg h2] at hc
      cases hc

theorem selectDateCol_none_iff (t : Table) :
    selectDateCol t = none ↔
      t.cols.contains "timestamp" = false ∧ t.cols.contains "date" = false := by
  unfold selectDateCol
  by_cases h1 : t.cols.contains "timestamp"
  · rw [if_pos h1]
    constructor
    · intro h; cases h
    · intro hab
      rw [h1] at hab
      cases hab.1
  · rw [if_neg h1]
    by_cases h2 : t.cols.contains "date"
    · rw [if_pos h2]
      constructor
      · intro h; cases h
      · intro hab
        rw [h2] at hab
        cases hab.2
    · rw [if_neg h2]
      exact ⟨fun _ => ⟨bool_eq_false h1, bool_eq_false h2⟩, fun _ => rfl⟩

/-! ### Cleaner lemmas -/

theorem clean_ok (t : Table) (h1 : t.rows ≠ [])
    (h2 : ∀ c ∈ required_cols, t.cols.contains c = true)
    (h3 : t.cols.contains "date" = true) :
    clean_validator_data t =
      Except.ok ⟨t.cols,
        t.rows.filter (fun r => required_cols.all (fun c => !(getCell r c).isMissing))⟩ := by
  unfold clean_validator_data
  have hne : t.rows.isEmpty = false := by
    cases h : t.rows with
    | nil => exact absurd h h1
    | cons a l => rfl
  rw [hne]
  simp only [Bool.false_eq_true, if_false]
  rw [dropna_ok t required_cols h2]
  simp only [h3, if_true]

theorem clean_ok_elim (t t2 : Table) (h : clean_validator_data t = Except.ok t2) :
    t.rows ≠ [] ∧ t2.cols = t.cols ∧
      t2.rows = t.rows.filter (fun r => required_cols.all (fun c => !(getCell r c).isMissing)) ∧
      (∀ c ∈ required_cols, t.cols.contains c = true) ∧
      t.cols.contains "date" = true := by
  unfold clean_validator_data at h
  by_cases hne : t.rows.isEmpty
  · rw [if_pos hne] at h
    cases h
  · rw [if_neg hne] at h
    cases hdrop : dropnaSubset t required_cols with
    | error e => rw [hdrop] at h; cases h
    | ok t3 =>
        rw [hdrop] at h
        obtain ⟨hcols, hrows, hcont⟩ := dropna_ok_elim t t3 required_cols hdrop
        have h2 : (if t3.cols.contains "date" = true then Except.ok t3
            else Except.error (PyError.keyError ["date"])) = Except.ok t2 := h
        by_cases hd : t3.cols.contains "date"
        · rw [if_pos hd] at h2
          have ht : t3 = t2 := Except.ok.inj h2
          subst ht
          refine ⟨?_, hcols, hrows, hcont, by rw [← hcols]; exact hd⟩
          intro hcon
          rw [List.isEmpty_iff] at hne
          exact hne hcon
        · rw [if_neg hd] at h2
          cases h2

/-! ### Orchestrator-stage lemmas -/

theorem publishStage_cases (t : Table) (sink : Table → SinkResult) :
    publishStage t sink =
      if sink t = SinkResult.raises then RunResult.failedAt Stage.publishing
      else RunResult.done t := by
  unfold publishStage upload_to_dune
  cases h : sink t with
  | raises => rw [if_pos rfl]
  | boolR b => rw [if_neg (by intro hc; cases hc)]
  | objR s => rw [if_neg (by intro hc; cases hc)]
  | other => rw [if_neg (by intro hc; cases hc)]

theorem cleanStage_err (t : Table) (sink : Table → SinkResult) (e : PyError)
    (h : clean_validator_data t = Except.error e) :
    cleanStage t sink = RunResult.failedAt Stage.cleaning := by
  unfold cleanStage
  rw [h]

theorem cleanStage_ok (t t2 : Table) (sink : Table → SinkResult)
    (h : clean_validator_data t = Except.ok t2) :
    cleanStage t sink = publishStage t2 sink := by
  unfold cleanStage
  rw [h]

theorem mainRun_eq_ok (raw : Table) (now : ℤ) (env : Option String)
    (sink : Table → SinkResult) (df : Table)
    (hf : fetch_validator_data raw = Except.ok df) :
    mainRun raw now env sink =
      if isValueError (verify_recent_data df now).1 && !(force_upload env) then
        RunResult.failedAt Stage.verifying
      else cleanStage (verify_recent_data df now).2 sink := by
  unfold mainRun
  rw [hf]

/-! ### Claim theorems -/

/-- C1 (amended): `clean_validator_data` does not raise — and drops at
most rows — provided its input is non-empty and carries every required
column together with the `date` column; optional columns (`churn`,
`entry_churn`, `exit_churn`) are never read, so their absence can never
cause a raise.  (As literally stated for every table, totality fails: see
the counterexample, where an empty table raises `IndexError`.) -/
theorem C1_clean_no_raise_when_complete (t : Table)
    (h1 : t.rows ≠ [])
    (h2 : ∀ c ∈ required_cols, t.cols.contains c = true)
    (h3 : t.cols.contains "date" = true) :
    ∃ t2, clean_validator_data t = Except.ok t2 ∧ t2.rows.length ≤ t.rows.length := by
  refine ⟨_, clean_ok t h1 h2 h3, ?_⟩
  exact List.length_filter_le _ _

/-- Witness for C1: the hypotheses hold of the concrete table `exGood`,
and `clean` succeeds on it. -/
theorem C1_witness :
    ∃ t2, clean_validator_data exGood = Except.ok t2 ∧
      t2.rows.length ≤ exGood.rows.length :=
  C1_clean_no_raise_when_complete exGood (by decide) (by decide) (by decide)

/-- Counterexample to C1 as stated: `clean` raises `IndexError` on the
table with every expected column but no rows (the `df.iloc[-1]` debug
print), so it is not total. -/
theorem C1_counterexample :
    clean_validator_data exEmptyRows = Except.error PyError.indexError := by
  decide

/-- C2 (amended): when a required column is entirely absent from a
non-empty table, `clean_validator_data` does not return the empty table:
it raises `KeyError` listing the absent required columns (from
`dropna(subset=...)`), and the fetch-side drop raises the same `KeyError`
even though the coercion loop only logged a warning for the absence. -/
theorem C2_clean_raises_on_absent_required (t : Table) (c : String)
    (h1 : t.rows ≠ []) (hc : c ∈ required_cols) (habs : t.cols.contains c = false) :
    clean_validator_data t =
      Except.error (PyError.keyError
        (required_cols.filter (fun c => !(t.cols.contains c)))) ∧
    fetch_validator_data t =
      Except.error (PyError.keyError
        (cols_to_numeric.filter (fun c => !(t.cols.contains c)))) := by
  constructor
  · unfold clean_validator_data
    have hne : t.rows.isEmpty = false := by
      cases h : t.rows with
      | nil => exact absurd h h1
      | cons a l => rfl
    rw [hne]
    simp only [Bool.false_eq_true, if_false]
    rw [dropna_absent t required_cols c hc habs]
  · unfold fetch_validator_data
    have hcn : c ∈ cols_to_numeric := hc
    rw [dropna_absent _ cols_to_numeric c hcn (by rw [foldl_coerce_cols]; exact habs)]
    rw [foldl_coerce_cols]

/-- Witness for C2: on the concrete partial-schema table (columns
`validators` and `date` only), `clean` raises `KeyError` naming the eight
absent required columns. -/
theorem C2_witness :
    clean_validator_data exPartialSchema =
      Except.error (PyError.keyError
        ["entry_queue", "entry_wait", "exit_queue", "exit_wait",
         "supply", "staked_amount", "staked_percent", "apr"]) := by
  have h := (C2_clean_raises_on_absent_required exPartialSchema "apr"
    (by decide) (by decide) (by decide)).1
  rw [h]
  decide

/-- Counterexample to C2 as stated: on the non-empty partial-schema table
the cleaner raises rather than returning the empty table. -/
theorem C2_counterexample :
    clean_validator_data exPartialSchema =
      Except.error (PyError.keyError
        ["entry_queue", "entry_wait", "exit_queue", "exit_wait",
         "supply", "staked_amount", "staked_percent", "apr"]) ∧
    clean_validator_data exPartialSchema ≠
      Except.ok ⟨exPartialSchema.cols, []⟩ := by
  constructor
  · decide
  · decide

/-- C6: `verify_recent_data` is `skipped` exactly when the table has
neither a `timestamp` nor a `date` column, and when a `timestamp` column
exists it is the selected date field. -/
theorem C6_skipped_iff_no_date_column (t : Table) (now : ℤ) :
    ((verify_recent_data t now).1 = VerifyOutcome.skipped ↔
      t.cols.contains "timestamp" = false ∧ t.cols.contains "date" = false) ∧
    (t.cols.contains "timestamp" = true → selectDateCol t = some "timestamp") := by
  constructor
  · constructor
    · intro h
      rw [← selectDateCol_none_iff]
      cases hsel : selectDateCol t with
      | none => rfl
      | some c =>
          rw [verify_eq_of_select t now c hsel] at h
          cases hmax : listMax (parsedDates t c) with
          | none =>
              rw [hmax] at h
              have h2 : (VerifyOutcome.freshErr, mutateDate t c).1 =
                  VerifyOutcome.skipped := h
              cases h2
          | some m =>
              rw [hmax] at h
              have h2 : (if m < now - weekSeconds then (VerifyOutcome.stale, mutateDate t c)
                  else (VerifyOutcome.passed, mutateDate t c)).1 = VerifyOutcome.skipped := h
              by_cases hlt : m < now - weekSeconds
              · rw [if_pos hlt] at h2; cases h2
              · rw [if_neg hlt] at h2; cases h2
    · intro h
      rw [verify_eq_of_none t now ((selectDateCol_none_iff t).mpr h)]
  · intro h
    unfold selectDateCol
    rw [if_pos h]

/-- Witness for C6: with both columns present, `timestamp` is selected (so
verification is not skipped); with neither present, it is skipped. -/
theorem C6_witness :
    selectDateCol exBothDateCols = some "timestamp" ∧
    (verify_recent_data exNoDateCols 0).1 = VerifyOutcome.skipped := by
  constructor
  · exact (C6_skipped_iff_no_date_column exBothDateCols 0).2 (by decide)
  · exact ((C6_skipped_iff_no_date_column exNoDateCols 0).1).mpr (by decide)

/-- C10: the override flag is enabled exactly when `FORCE_UPLOAD`,
lowercased, is `true`, `1` or `yes`; it is disabled when the variable is
unset or holds any other value. -/
theorem C10_force_upload_semantics :
    force_upload none = false ∧
    ∀ s : String, force_upload (some s) = true ↔
      (strLower s = "true" ∨ strLower s = "1" ∨ strLower s = "yes") := by
  constructor
  · decide
  · intro s
    unfold force_upload
    simp only [Option.getD_some]
    rw [List.elem_iff]
    simp only [List.mem_cons, List.not_mem_nil, or_false]

/-- Witness for C10: `TRUE` (any case) enables the override, `no` and the
unset variable do not. -/
theorem C10_witness :
    force_upload (some "TRUE") = true ∧
    force_upload (some "no") = false ∧
    force_upload none = false := by
  refine ⟨(C10_force_upload_semantics.2 "TRUE").mpr (Or.inl (by decide)), ?_,
    C10_force_upload_semantics.1⟩
  apply bool_eq_false
  intro h
  rcases (C10_force_upload_semantics.2 "no").mp h with h1 | h1 | h1 <;>
    exact absurd h1 (by decide)

/-! ### Further freshness-gate helper lemmas -/

theorem verify_fst_some_max (t : Table) (now : ℤ) (c : String) (m : ℤ)
    (hc : selectDateCol t = some c)
    (hm : listMax (parsedDates t c) = some m) :
    (verify_recent_data t now).1 =
      if m < now - weekSeconds then VerifyOutcome.stale else VerifyOutcome.passed := by
  rw [verify_eq_of_select t now c hc, hm]
  show (if m < now - weekSeconds then (VerifyOutcome.stale, mutateDate t c)
      else (VerifyOutcome.passed, mutateDate t c)).1 = _
  by_cases hlt : m < now - weekSeconds
  · rw [if_pos hlt, if_pos hlt]
  · rw [if_neg hlt, if_neg hlt]

theorem verify_fst_none_max (t : Table) (now : ℤ) (c : String)
    (hc : selectDateCol t = some c)
    (hm : listMax (parsedDates t c) = none) :
    (verify_recent_data t now).1 = VerifyOutcome.freshErr := by
  rw [verify_eq_of_select t now c hc, hm]

theorem verify_snd_mutate (t : Table) (now : ℤ) (c : String)
    (hc : selectDateCol t = some c) :
    (verify_recent_data t now).2 = mutateDate t c := by
  rw [verify_eq_of_select t now c hc]
  cases hm : listMax (parsedDates t c) with
  | none => rfl
  | some m =>
      show (if m < now - weekSeconds then (VerifyOutcome.stale, mutateDate t c)
          else (VerifyOutcome.passed, mutateDate t c)).2 = _
      by_cases hlt : m < now - weekSeconds
      · rw [if_pos hlt]
      · rw [if_neg hlt]

/-- C3: with a date column selected, `verify_recent_data` raises the
outdated-data `ValueError` (`stale`) exactly when the maximum parseable
date is strictly earlier than `now - 7 days`, and returns normally
(`passed`) otherwise; when no value of the column parses it raises the
distinct cannot-determine-latest-date `ValueError` (`freshErr`), which is
never the `stale` outcome. -/
theorem C3_stale_iff_latest_old (t : Table) (now : ℤ) (c : String)
    (hc : selectDateCol t = some c) :
    (∀ m : ℤ, listMax (parsedDates t c) = some m →
      (((verify_recent_data t now).1 = VerifyOutcome.stale) ↔ m < now - weekSeconds) ∧
      (((verify_recent_data t now).1 = VerifyOutcome.passed) ↔ ¬ m < now - weekSeconds)) ∧
    (listMax (parsedDates t c) = none →
      (verify_recent_data t now).1 = VerifyOutcome.freshErr ∧
      VerifyOutcome.freshErr ≠ VerifyOutcome.stale) := by
  constructor
  · intro m hm
    rw [verify_fst_some_max t now c m hc hm]
    by_cases hlt : m < now - weekSeconds
    · rw [if_pos hlt]
      refine ⟨⟨fun _ => hlt, fun _ => rfl⟩, ⟨?_, ?_⟩⟩
      · intro h
        cases h
      · intro h
        exact absurd hlt h
    · rw [if_neg hlt]
      refine ⟨⟨?_, ?_⟩, ⟨fun _ => hlt, fun _ => rfl⟩⟩
      · intro h
        cases h
      · intro h
        exact absurd h hlt
  · intro hm
    exact ⟨verify_fst_none_max t now c hc hm, fun h => by cases h⟩

/-- Witness for C3: on the concrete fresh-at-instant-0 table, with `now`
seven days plus some slack later, the single parseable date is older than
the threshold and verification raises `stale`. -/
theorem C3_witness :
    (verify_recent_data exGood 700000).1 = VerifyOutcome.stale :=
  (((C3_stale_iff_latest_old exGood 700000 "date" (by decide)).1
    0 (by decide)).1).mpr (by decide)

/-- C8 (amended): `clean` is idempotent on every non-empty cleaned table:
if `clean(T)` succeeds with a non-empty result, cleaning that result
returns it unchanged.  (On an empty cleaned result, re-cleaning instead
raises `IndexError` — see the counterexample — so idempotence as literally
stated for every cleaned output fails.) -/
theorem C8_clean_idempotent_on_nonempty (t t2 : Table)
    (h : clean_validator_data t = Except.ok t2) (hne : t2.rows ≠ []) :
    clean_validator_data t2 = Except.ok t2 := by
  obtain ⟨h1, hcols, hrows, hcont, hdate⟩ := clean_ok_elim t t2 h
  have hcont2 : ∀ c ∈ required_cols, t2.cols.contains c = true := by
    intro c hc
    rw [hcols]
    exact hcont c hc
  have hdate2 : t2.cols.contains "date" = true := by
    rw [hcols]
    exact hdate
  have hfix : t2.rows.filter
      (fun r => required_cols.all (fun c => !(getCell r c).isMissing)) = t2.rows := by
    apply List.filter_eq_self.mpr
    intro r hr
    rw [hrows] at hr
    exact (List.mem_filter.mp hr).2
  rw [clean_ok t2 hne hcont2 hdate2, hfix]

/-- Witness for C8: `exGood` is its own cleaning, and re-cleaning it
returns it unchanged. -/
theorem C8_witness : clean_validator_data exGood = Except.ok exGood :=
  C8_clean_idempotent_on_nonempty exGood exGood (by decide) (by decide)

/-- Counterexample to C8 as stated: cleaning the all-cells-missing one-row
table succeeds with an empty result, but cleaning that already-cleaned
result raises `IndexError` instead of returning it. -/
theorem C8_counterexample :
    clean_validator_data exAllMissingRow = Except.ok exEmptyRows ∧
    clean_validator_data exEmptyRows = Except.error PyError.indexError := by
  exact ⟨by decide, by decide⟩

/-- C9: when a date column is selected, `verify_recent_data` hands back the
table with exactly that column overwritten by its parsed values
(unparseable entries become missing) and every other column unchanged, and
the orchestrator passes this mutated table on to the cleaner. -/
theorem C9_verify_mutates_date_column (t : Table) (now : ℤ) (c : String)
    (hc : selectDateCol t = some c) :
    (verify_recent_data t now).2 = mutateDate t c ∧
    (mutateDate t c).cols = t.cols ∧
    (mutateDate t c).rows = t.rows.map (fun r => setCell r c (dateCoerce (getCell r c))) ∧
    (∀ r : Row, getCell (setCell r c (dateCoerce (getCell r c))) c = dateCoerce (getCell r c)) ∧
    (∀ (r : Row) (c2 : String), c2 ≠ c →
      getCell (setCell r c (dateCoerce (getCell r c))) c2 = getCell r c2) ∧
    (∀ v : PyVal, to_datetime v = none → dateCoerce v = PyVal.missing) ∧
    (∀ (raw : Table) (env : Option String) (sink : Table → SinkResult),
      fetch_validator_data raw = Except.ok t →
      (isValueError (verify_recent_data t now).1 && !(force_upload env)) = false →
      mainRun raw now env sink = cleanStage (mutateDate t c) sink) := by
  refine ⟨verify_snd_mutate t now c hc, rfl, rfl,
    fun r => getCell_setCell_same r c _,
    fun r c2 h2 => getCell_setCell_ne r c c2 _ h2,
    fun v hv => dateCoerce_missing_of_unparseable v hv,
    ?_⟩
  intro raw env sink hf hcond
  rw [mainRun_eq_ok raw now env sink t hf, hcond]
  simp only [Bool.false_eq_true, if_false]
  rw [verify_snd_mutate t now c hc]

/-- Witness for C9: on the concrete two-column table the unparseable
`date` value has been overwritten with missing while the other column is
untouched. -/
theorem C9_witness :
    (verify_recent_data exMutate 0).2 =
      ⟨["date", "x"], [[("date", PyVal.missing), ("x", PyVal.numV 5)]]⟩ := by
  rw [(C9_verify_mutates_date_column exMutate 0 "date" (by decide)).1]
  decide

/-- C4 (amended): the `FORCE_UPLOAD` override downgrades both of the
gate's `ValueError`s — the `stale` outcome and the unparseable-date
`freshErr` alike, since `main` catches them with one `except ValueError`
handler: with the flag set the run proceeds to the cleaning stage on
either outcome, and with the flag unset either outcome transitions to
`Failed` at the verifying stage.  (As literally stated — `freshErr` fatal
even under the override — the claim fails: see the counterexample.) -/
theorem C4_override_downgrades_both (raw df : Table) (now : ℤ) (env : Option String)
    (sink : Table → SinkResult)
    (hf : fetch_validator_data raw = Except.ok df)
    (hv : isValueError (verify_recent_data df now).1 = true) :
    (force_upload env = false →
      mainRun raw now env sink = RunResult.failedAt Stage.verifying) ∧
    (force_upload env = true →
      mainRun raw now env sink = cleanStage (verify_recent_data df now).2 sink) := by
  constructor
  · intro hforce
    rw [mainRun_eq_ok raw now env sink df hf, hv, hforce]
    simp only [Bool.not_false, Bool.and_true, if_true]
  · intro hforce
    rw [mainRun_eq_ok raw now env sink df hf, hv, hforce]
    simp only [Bool.not_true, Bool.and_false, Bool.false_eq_true, if_false]

/-- Witness for C4: with the override unset, the all-unparseable-dates
table fails the run at the verifying stage. -/
theorem C4_witness :
    mainRun exJunkDate 0 none sinkTrue = RunResult.failedAt Stage.verifying :=
  (C4_override_downgrades_both exJunkDate exJunkDate 0 none sinkTrue
    (by decide) (by decide)).1 (by decide)

/-- Counterexample to C4 as stated: on the table whose dates are all
unparseable the gate raises `freshErr`, yet with `FORCE_UPLOAD=true` the
run is not stopped — it proceeds through cleaning and publishing to
`done`. -/
theorem C4_counterexample :
    (verify_recent_data exJunkDate 0).1 = VerifyOutcome.freshErr ∧
    mainRun exJunkDate 0 (some "true") sinkTrue = RunResult.done exJunkDateCoerced := by
  exact ⟨by decide, by decide⟩

/-- C5 (amended): once the pipeline reaches publishing, the run fails at
the publishing stage (non-zero exit) precisely when the sink call raises;
any returned result — the boolean-`False` failure indicator included — is
only logged, and the run ends `done` with exit code 0. -/
theorem C5_failed_publishing_iff_sink_raises (raw df df3 : Table) (now : ℤ)
    (env : Option String) (sink : Table → SinkResult)
    (hf : fetch_validator_data raw = Except.ok df)
    (hv : (isValueError (verify_recent_data df now).1 && !(force_upload env)) = false)
    (hc : clean_validator_data (verify_recent_data df now).2 = Except.ok df3) :
    (mainRun raw now env sink = RunResult.failedAt Stage.publishing ↔
      sink df3 = SinkResult.raises) ∧
    (mainRun raw now env sink = RunResult.done df3 ↔ sink df3 ≠ SinkResult.raises) ∧
    (exitCode (mainRun raw now env sink) = 0 ↔ sink df3 ≠ SinkResult.raises) := by
  have hm : mainRun raw now env sink = publishStage df3 sink := by
    rw [mainRun_eq_ok raw now env sink df hf, hv]
    simp only [Bool.false_eq_true, if_false]
    exact cleanStage_ok _ df3 sink hc
  rw [hm, publishStage_cases df3 sink]
  by_cases hs : sink df3 = SinkResult.raises
  · rw [if_pos hs]
    refine ⟨⟨fun _ => hs, fun _ => rfl⟩, ⟨?_, ?_⟩, ⟨?_, ?_⟩⟩
    · intro h
      cases h
    · intro h
      exact absurd hs h
    · intro h
      exact absurd h (by decide)
    · intro h
      exact absurd hs h
  · rw [if_neg hs]
    refine ⟨⟨?_, ?_⟩, ⟨fun _ => hs, fun _ => rfl⟩, ⟨fun _ => hs, fun _ => rfl⟩⟩
    · intro h
      cases h
    · intro h
      exact absurd h hs

/-- Witness for C5: with a raising sink, the concretely cleaned good table
ends the run failed at publishing. -/
theorem C5_witness :
    mainRun exGood 0 none sinkRaises = RunResult.failedAt Stage.publishing :=
  ((C5_failed_publishing_iff_sink_raises exGood exGood exGood 0 none sinkRaises
    (by decide) (by decide) (by decide)).1).mpr (by decide)

/-- Counterexample to C5 as stated: the sink returns the boolean failure
indicator `False`, yet the run ends `done` with process exit code 0. -/
theorem C5_counterexample :
    mainRun exGood 0 none sinkFalse = RunResult.done exGood ∧
    exitCode (mainRun exGood 0 none sinkFalse) = 0 := by
  exact ⟨by decide, by decide⟩

/-- C7: every row of the cleaned table holds a non-missing numeric value
in each of the nine required columns, the pipeline's numeric coercion
(`pd.to_numeric(errors='coerce')`) mapping every non-coercible value to
missing so that the drop steps remove its row. -/
theorem C7_cleaned_rows_all_numeric (raw df df3 : Table) (now : ℤ)
    (hf : fetch_validator_data raw = Except.ok df)
    (hc : clean_validator_data (verify_recent_data df now).2 = Except.ok df3) :
    (∀ r ∈ df3.rows, ∀ c ∈ required_cols, ∃ q, getCell r c = PyVal.numV q) ∧
    (∀ v : PyVal, to_numeric v = PyVal.missing ∨ ∃ q, to_numeric v = PyVal.numV q) := by
  refine ⟨?_, to_numeric_num_or_missing⟩
  unfold fetch_validator_data at hf
  obtain ⟨hdcols, hdrows, hdcont⟩ := dropna_ok_elim _ df cols_to_numeric hf
  have hdf : ∀ r ∈ df.rows, ∀ c ∈ cols_to_numeric, ∃ q, getCell r c = PyVal.numV q := by
    intro r hr c hcm
    rw [hdrows] at hr
    obtain ⟨hrm, hkeep⟩ := List.mem_filter.mp hr
    have hcontc : raw.cols.contains c = true := by
      have h2 := hdcont c hcm
      rw [foldl_coerce_cols] at h2
      exact h2
    have hnm := foldl_coerce_establishes cols_to_numeric raw c hcm hcontc r hrm
    have hmiss : (!(getCell r c).isMissing) = true := List.all_eq_true.mp hkeep c hcm
    cases hnm with
    | inl hm =>
        rw [hm] at hmiss
        exact absurd hmiss (by decide)
    | inr hq => exact hq
  obtain ⟨_, hccols, hcrows, _, _⟩ := clean_ok_elim _ df3 hc
  intro r hr c hcm
  rw [hcrows] at hr
  obtain ⟨hrm, _⟩ := List.mem_filter.mp hr
  cases hsel : selectDateCol df with
  | none =>
      rw [verify_eq_of_none df now hsel] at hrm
      exact hdf r hrm c hcm
  | some cd =>
      rw [verify_snd_mutate df now cd hsel] at hrm
      have hrm2 : r ∈ df.rows.map (fun r => setCell r cd (dateCoerce (getCell r cd))) := hrm
      obtain ⟨r0, hr0, rfl⟩ := List.mem_map.mp hrm2
      have hcd : cd ∉ required_cols := by
        rcases selectDateCol_mem df cd hsel with h | h <;> rw [h] <;> decide
      have hne : c ≠ cd := fun heq => hcd (heq ▸ hcm)
      rw [getCell_setCell_ne r0 cd c _ hne]
      exact hdf r0 hr0 c hcm

/-- Witness for C7: running fetch, verify and clean on the concrete
two-record table (one full record, one empty record) leaves the full
record, whose `apr` cell is numeric. -/
theorem C7_witness : ∃ q, getCell rowFull "apr" = PyVal.numV q :=
  (C7_cleaned_rows_all_numeric exGoodPlusEmpty exGood exGood 0
    (by decide) (by decide)).1 rowFull (by decide) "apr" (by decide)
